import Mathlib

/-!
# Audio output buffering and flow control: a shallow embedding

This file embeds the buffering core of `src/audio-output-stream.cpp`
(`AudioOutputStream`) in Lean and settles the frozen claims about it.

The embedded pieces are:

* the stream fields set by the constructor and `create` (`StreamState`,
  `initialState`, `create`);
* the drain path `AudioOutputStream::fillBuffer` (`drainLoop`, `fillBuffer`),
  including the post-drain space/drained notifications;
* the producer entry point `AudioOutputStream::write` (`write`);
* the waiters `AudioOutputStream::isReady` / `isFinished`;
* the negotiation confirmation `AudioOutputStream::onFormatChange`
  (`bytesForFormat`, `onFormatChange`);
* teardown `AudioOutputStream::destroy` / `_destroy` (`destroyStream`);
* the getter `AudioOutputStream::getBufferSize` (`getBufferSize`).

`queuedFrameCount` is a C `uint` (32 bits); its updates are modelled with
explicit wraparound modulo `2 ^ 32` (`addWrap`, `subWrap`), which is where the
underflow behaviour relevant to the queued-frame invariant lives.  Chunks are
modelled as lists of byte values, so the drain path's copy/zero-fill output is
observable.  The build compiles `napi.h` with C++ exceptions enabled (the code
itself uses `throw`/`try`/`catch` in `parsePreferredFormats` and `connect`), so
`ThrowAsJavaScriptException` aborts the surrounding method; `write` is
accordingly modelled as returning an error without mutating the state.
-/

/-- Modulus of the C `uint` fields (32-bit unsigned). -/
def U32 : Nat := 4294967296

/-- Wrapping addition on a C `uint` field. -/
def addWrap (a b : Nat) : Nat := (a + b) % U32

/-- Wrapping subtraction on a C `uint` field (`a -= b`). -/
def subWrap (a b : Nat) : Nat := (a % U32 + (U32 - b % U32)) % U32

/-- The sample encodings (`spa_audio_format`) distinguished by the
bytes-per-sample switch in `AudioOutputStream::onFormatChange`; every encoding
the switch does not name is represented by `other` with its numeric code. -/
inductive SpaAudioFormat where
  | F64
  | F32
  | S32
  | U32fmt
  | S24_32
  | S16
  | U16
  | other (code : Nat)
deriving DecidableEq

/-- The bytes-per-sample table of `AudioOutputStream::onFormatChange`
(lines 472-494): the switch on the newly confirmed format. -/
def bytesForFormat : SpaAudioFormat → Nat
  | .F64 => 8
  | .F32 => 4
  | .S32 => 4
  | .U32fmt => 4
  | .S24_32 => 4
  | .S16 => 2
  | .U16 => 2
  | .other _ => 4

/-- The fields of `AudioOutputStream` the buffering core reads and writes.
`buffers` holds each queued chunk's bytes (the `js_buffer` queue), `stream`
records whether the `pw_stream` handle is live, and the two deferral flags
record a pending `isReady` / `isFinished` waiter. -/
structure StreamState where
  format : SpaAudioFormat
  bytesPerSample : Nat
  rate : Nat
  channels : Nat
  frameBufferSize : Nat
  queuedFrameCount : Nat
  buffers : List (List Nat)
  currentBufferOffset : Nat
  readyDeferral : Bool
  finishedDeferral : Bool
  stream : Bool
  callbacksReleased : Bool
  propsRefCount : Nat
deriving DecidableEq

/-- The constructor's member initialisers (lines 80-102): default F64 format,
8 bytes per sample, 48000 Hz, stereo, a 2048-frame buffer, empty queue, no
pending waiters, no `pw_stream` yet. -/
def initialState : StreamState where
  format := .F64
  bytesPerSample := 8
  rate := 48000
  channels := 2
  frameBufferSize := 2048
  queuedFrameCount := 0
  buffers := []
  currentBufferOffset := 0
  readyDeferral := false
  finishedDeferral := false
  stream := false
  callbacksReleased := false
  propsRefCount := 0

/-- `AudioOutputStream::getBytesPerFrame`: `bytesPerSample * channels` as a
C `uint32_t` product. -/
def getBytesPerFrame (s : StreamState) : Nat :=
  (s.bytesPerSample * s.channels) % U32

/-- `AudioOutputStream::getBufferSize` (lines 302-308): available buffer space
in bytes, computed in `long` arithmetic and clamped at zero. -/
def getBufferSize (s : StreamState) : Int :=
  max 0 (((s.frameBufferSize : Int) - (s.queuedFrameCount : Int)) * (getBytesPerFrame s : Int))

/-- The options read by `AudioOutputStream::create` (lines 104-131). -/
structure CreateOptions where
  format : SpaAudioFormat
  bytesPerSample : Nat
  rate : Nat
  channels : Nat
deriving DecidableEq

/-- `AudioOutputStream::create`: overwrites the geometry fields from the
options object, creates the `props` reference with count 1, creates the five
notification `ThreadSafeFunction`s (`initCallbacks`), and (through
`initStream`) obtains the `pw_stream` handle.  It does not touch
`frameBufferSize` or the queue. -/
def create (s : StreamState) (o : CreateOptions) : StreamState :=
  { s with
    format := o.format
    bytesPerSample := o.bytesPerSample
    rate := o.rate
    channels := o.channels
    stream := true
    callbacksReleased := false
    propsRefCount := 1 }

/-- Result of `AudioOutputStream::write`: the (possibly unchanged) state and
whether the misaligned-length `TypeError` was thrown. -/
structure WriteOutcome where
  state : StreamState
  threw : Bool
deriving DecidableEq

/-- `AudioOutputStream::write` (lines 543-576): reject a buffer whose length is
not a multiple of the current frame size (the thrown `TypeError` aborts the
call before any mutation); otherwise push the chunk and add `size / frameSize`
to the `uint` frame counter. -/
def write (s : StreamState) (chunk : List Nat) : WriteOutcome :=
  let frameSize := getBytesPerFrame s
  if chunk.length % frameSize ≠ 0 then
    { state := s, threw := true }
  else
    { state :=
        { s with
          buffers := s.buffers ++ [chunk]
          queuedFrameCount := addWrap s.queuedFrameCount (chunk.length / frameSize) }
      threw := false }

/-- Result of one run of the copy loop in `AudioOutputStream::fillBuffer`
(lines 634-653): the bytes copied out, the surviving chunk queue and read
offset, the total subtracted from `queuedFrameCount` (accumulated per segment
as `amtToCopy / stride`), and `totalWritten`. -/
structure DrainResult where
  copied : List Nat
  buffers : List (List Nat)
  offset : Nat
  decrement : Nat
  totalWritten : Nat
deriving DecidableEq

/-- The `while (remainingBytes > 0 && buffers.size())` loop of
`AudioOutputStream::fillBuffer`.  Each iteration copies
`min remaining sourceRemaining` bytes from the front chunk's unread tail,
advances the offsets, subtracts `amtToCopy / stride` frames, and pops the
chunk once `currentBufferOffset` reaches its size.  An iteration that does not
pop leaves `remaining = 0`, so the recursion is on the chunk list. -/
def drainLoop (stride : Nat) : Nat → List (List Nat) → Nat → DrainResult
  | _, [], offset =>
      { copied := [], buffers := [], offset := offset, decrement := 0, totalWritten := 0 }
  | 0, chunk :: rest, offset =>
      { copied := [], buffers := chunk :: rest, offset := offset,
        decrement := 0, totalWritten := 0 }
  | Nat.succ n, chunk :: rest, offset =>
      let remaining := Nat.succ n
      let sourceRemaining := chunk.length - offset
      let amtToCopy := min remaining sourceRemaining
      if chunk.length ≤ offset + amtToCopy then
        let tail := drainLoop stride (remaining - amtToCopy) rest 0
        { copied := (chunk.drop offset).take amtToCopy ++ tail.copied
          buffers := tail.buffers
          offset := tail.offset
          decrement := amtToCopy / stride + tail.decrement
          totalWritten := amtToCopy + tail.totalWritten }
      else
        { copied := (chunk.drop offset).take amtToCopy
          buffers := chunk :: rest
          offset := offset + amtToCopy
          decrement := amtToCopy / stride
          totalWritten := amtToCopy }

/-- Observable outcome of one `fillBuffer` call: the post-call state, the
`size` destination bytes (`dest`), the copied byte count, and which
notifications the call produced.  `firedReady` is the `NonBlockingCall` on
`readySignal` (line 660-663); `resolvedReady` adds the availability re-check
done inside the ready callback itself (lines 591-599), which resolves and
clears the deferral only when `availableBytes > 0`.  `firedFinished` is the
`finishedSignal` call (lines 665-668), whose callback resolves
unconditionally. -/
structure FillOutcome where
  state : StreamState
  dest : List Nat
  totalWritten : Nat
  firedReady : Bool
  resolvedReady : Bool
  firedFinished : Bool
deriving DecidableEq

/-- `AudioOutputStream::fillBuffer` (lines 628-669): run the copy loop,
zero-fill the rest of the destination, apply the (wrapping) frame-counter
decrement, then evaluate the two post-drain notifications. -/
def fillBuffer (s : StreamState) (size : Nat) : FillOutcome :=
  let stride := getBytesPerFrame s
  let r := drainLoop stride size s.buffers s.currentBufferOffset
  let q := subWrap s.queuedFrameCount r.decrement
  let firedReady := decide (q < s.frameBufferSize) && s.readyDeferral
  let resolvedReady :=
    firedReady && decide (0 < ((s.frameBufferSize : Int) - (q : Int)) * (stride : Int))
  let firedFinished := decide (r.totalWritten = 0) && s.finishedDeferral
  { state :=
      { s with
        buffers := r.buffers
        currentBufferOffset := r.offset
        queuedFrameCount := q
        readyDeferral := if resolvedReady then false else s.readyDeferral
        finishedDeferral := if firedFinished then false else s.finishedDeferral }
    dest := r.copied ++ List.replicate (size - r.totalWritten) 0
    totalWritten := r.totalWritten
    firedReady := firedReady
    resolvedReady := resolvedReady
    firedFinished := firedFinished }

/-- `AudioOutputStream::isReady` (lines 578-604, the `waitForSpace` surface):
resolve immediately with the available byte count when it is positive,
otherwise leave/create the single shared pending deferral. -/
def isReady (s : StreamState) : StreamState × Bool :=
  if 0 < ((s.frameBufferSize : Int) - (s.queuedFrameCount : Int)) * (getBytesPerFrame s : Int) then
    (s, true)
  else
    ({ s with readyDeferral := true }, false)

/-- `AudioOutputStream::isFinished` (lines 606-626, the `waitForDrained`
surface): resolve immediately when `queuedFrameCount == 0`, otherwise
leave/create the single shared pending deferral. -/
def isFinished (s : StreamState) : StreamState × Bool :=
  if s.queuedFrameCount = 0 then
    (s, true)
  else
    ({ s with finishedDeferral := true }, false)

/-- Observable outcome of `AudioOutputStream::destroy` (lines 671-707): the
post-call state, which pending waiters this call rejected, whether this call
released the `pw_stream` (the `if (stream)` guard in `_destroy`), whether its
completion block released the five notification `ThreadSafeFunction`s even
though they had already been released by an earlier call, and whether its
`props.Unref()` ran at reference count 0 — which `napi_reference_unref`
rejects and which therefore throws under the C++-exceptions build. -/
structure DestroyOutcome where
  state : StreamState
  rejectedReady : Bool
  rejectedFinished : Bool
  releasedStream : Bool
  releasedCallbacksAgain : Bool
  threwOnUnref : Bool
deriving DecidableEq

/-- `AudioOutputStream::destroy` / `_destroy`: reject and clear each pending
deferral, destroy the `pw_stream` only if it is still present and null it out,
and then run the completion block (lines 688-695) unconditionally: release the
five notification `ThreadSafeFunction`s and `props.Unref()`.  The failed unref
leaves the count at 0 (Nat truncation models `napi_reference_unref` rejecting
the call without touching the count). -/
def destroyStream (s : StreamState) : DestroyOutcome where
  state :=
    { s with
      readyDeferral := false
      finishedDeferral := false
      stream := false
      callbacksReleased := true
      propsRefCount := s.propsRefCount - 1 }
  rejectedReady := s.readyDeferral
  rejectedFinished := s.finishedDeferral
  releasedStream := s.stream
  releasedCallbacksAgain := s.callbacksReleased
  threwOnUnref := decide (s.propsRefCount = 0)

/-- The confirmed geometry parsed from the service's `SPA_PARAM_Format` pod in
`AudioOutputStream::onFormatChange`. -/
structure AudioInfoRaw where
  format : SpaAudioFormat
  rate : Nat
  channels : Nat
deriving DecidableEq

/-- `AudioOutputStream::onFormatChange` (lines 463-510): derive bytes per
sample from the confirmed encoding, and when any of rate, channels, format, or
the derived bytes-per-sample differs from the stored geometry, store the new
values and fire the format-change callback (the returned flag). -/
def onFormatChange (s : StreamState) (info : AudioInfoRaw) : StreamState × Bool :=
  let newBytesPerSample := bytesForFormat info.format
  if info.rate ≠ s.rate ∨ info.channels ≠ s.channels ∨ info.format ≠ s.format ∨
      newBytesPerSample ≠ s.bytesPerSample then
    ({ s with
        rate := info.rate
        channels := info.channels
        format := info.format
        bytesPerSample := newBytesPerSample }, true)
  else
    (s, false)

/-- The operations a client and the service can interleave on one stream. -/
inductive Op where
  | create (o : CreateOptions)
  | connect
  | write (chunk : List Nat)
  | drain (size : Nat)
  | formatChange (info : AudioInfoRaw)
  | waitForSpace
  | waitForDrained
  | destroy
deriving DecidableEq

/-- State transition of a single operation.  `connect` only builds and sends
the negotiation pod (lines 231-280); it mutates none of the embedded fields. -/
def step (s : StreamState) : Op → StreamState
  | .create o => create s o
  | .connect => s
  | .write chunk => (write s chunk).state
  | .drain size => (fillBuffer s size).state
  | .formatChange info => (onFormatChange s info).1
  | .waitForSpace => (isReady s).1
  | .waitForDrained => (isFinished s).1
  | .destroy => (destroyStream s).state

/-- Run a sequence of operations from the freshly constructed stream. -/
def run (ops : List Op) : StreamState := ops.foldl step initialState

/-- Two 12-byte chunks written while the frame size is 4 bytes (S16 stereo),
after which the service confirms F32 stereo, making the frame size 8 bytes:
the queued chunks are no longer aligned to the frame size in effect at drain
time. -/
def C1ops : List Op :=
  [.formatChange ⟨.S16, 48000, 2⟩, .write (List.replicate 12 1), .write (List.replicate 12 2),
   .formatChange ⟨.F32, 48000, 2⟩]

/-- A 16-byte chunk written while the frame size is 8 bytes (F32 stereo, 2
queued frames), after which the service confirms S16 stereo (4-byte frames):
the next drain of those 16 bytes subtracts 4 frames from a counter holding
2. -/
def C2ops : List Op :=
  [.formatChange ⟨.F32, 48000, 2⟩, .write (List.replicate 16 0),
   .formatChange ⟨.S16, 48000, 2⟩, .drain 16]

/-- A stream over capacity with a pending space waiter: 2-byte frames, 2050
queued frames (the 2048-frame capacity plus two), a 4-byte chunk at the front
of the queue.  Draining those 4 bytes lands the counter exactly on the
capacity. -/
def c4CexState : StreamState :=
  { initialState with
    bytesPerSample := 2
    channels := 1
    queuedFrameCount := 2050
    buffers := [List.replicate 4 5]
    readyDeferral := true }

/-- A stream whose pending space waiter should resolve: 16-byte frames, 2049
queued frames (one above capacity), one 32-byte chunk queued. -/
def c4WitnessState : StreamState :=
  { initialState with
    queuedFrameCount := 2049
    buffers := [List.replicate 32 5]
    readyDeferral := true }

/-- Scenario A of the spec: geometry 8 bytes per frame (4-byte samples,
stereo), a 4-frame capacity, and a pending space waiter. -/
def scenarioA : StreamState :=
  { initialState with
    bytesPerSample := 4
    channels := 2
    frameBufferSize := 4
    readyDeferral := true }

/-- A stream at a 2-frame capacity holding exactly 2 queued frames and no
chunks: a zero-byte drain leaves the counter exactly at capacity. -/
def c5WitnessState : StreamState :=
  { initialState with frameBufferSize := 2, queuedFrameCount := 2 }

/-- A freshly created stream (constructor followed by `create` with the
default geometry): live `pw_stream`, live notification channels, `props`
reference count 1. -/
def c9State : StreamState := create initialState ⟨.F64, 8, 48000, 2⟩

/-- A stream with 2 queued frames in one 32-byte chunk under the default
16-byte frames. -/
def c1WitnessState : StreamState :=
  { initialState with queuedFrameCount := 2, buffers := [List.replicate 32 1] }

/-! ## Helper lemmas about the drain loop -/

/-- The copy loop never copies more bytes than requested. -/
lemma drainLoop_totalWritten_le (stride : Nat) :
    ∀ (bufs : List (List Nat)) (rem off : Nat),
      (drainLoop stride rem bufs off).totalWritten ≤ rem := by
  intro bufs
  induction bufs with
  | nil => intro rem off; cases rem <;> simp [drainLoop]
  | cons chunk rest ih =>
    intro rem off
    cases rem with
    | zero => simp [drainLoop]
    | succ n =>
      simp only [drainLoop]
      split
      · dsimp only
        have h := ih (Nat.succ n - min (Nat.succ n) (chunk.length - off)) 0
        omega
      · dsimp only
        omega

/-- The bytes the copy loop outputs are exactly `totalWritten` many. -/
lemma drainLoop_copied_length (stride : Nat) :
    ∀ (bufs : List (List Nat)) (rem off : Nat),
      (drainLoop stride rem bufs off).copied.length =
        (drainLoop stride rem bufs off).totalWritten := by
  intro bufs
  induction bufs with
  | nil => intro rem off; cases rem <;> simp [drainLoop]
  | cons chunk rest ih =>
    intro rem off
    cases rem with
    | zero => simp [drainLoop]
    | succ n =>
      simp only [drainLoop]
      split
      · dsimp only
        have h := ih (Nat.succ n - min (Nat.succ n) (chunk.length - off)) 0
        simp only [List.length_append, List.length_take, List.length_drop, h]
        omega
      · dsimp only
        simp only [List.length_take, List.length_drop]
        omega

/-- When the read offset and every queued chunk length are multiples of the
current stride, the per-segment frame decrements of the copy loop sum to
`totalWritten / stride`. -/
lemma drainLoop_decrement_aligned (stride : Nat) (hs : 0 < stride) :
    ∀ (bufs : List (List Nat)) (rem off : Nat),
      off % stride = 0 → (∀ c ∈ bufs, c.length % stride = 0) →
      (drainLoop stride rem bufs off).decrement =
        (drainLoop stride rem bufs off).totalWritten / stride := by
  intro bufs
  induction bufs with
  | nil => intro rem off _ _; cases rem <;> simp [drainLoop]
  | cons chunk rest ih =>
    intro rem off hoff hall
    have hchunk : chunk.length % stride = 0 := hall chunk (List.mem_cons_self chunk rest)
    have hrest : ∀ c ∈ rest, c.length % stride = 0 :=
      fun c hc => hall c (List.mem_cons_of_mem _ hc)
    cases rem with
    | zero => simp [drainLoop]
    | succ n =>
      simp only [drainLoop]
      split
      · rename_i hpop
        dsimp only
        rw [ih (Nat.succ n - min (Nat.succ n) (chunk.length - off)) 0 (Nat.zero_mod stride) hrest]
        have hamt : min (Nat.succ n) (chunk.length - off) = chunk.length - off := by omega
        have hdvd : stride ∣ min (Nat.succ n) (chunk.length - off) := by
          rw [hamt]
          exact Nat.dvd_sub' (Nat.dvd_of_mod_eq_zero hchunk) (Nat.dvd_of_mod_eq_zero hoff)
        obtain ⟨k, hk⟩ := hdvd
        rw [hk, Nat.mul_add_div hs, Nat.mul_div_cancel_left k hs]
      · dsimp only

/-- Wrapping subtraction on the frame counter is plain subtraction as long as
no underflow occurs. -/
lemma subWrap_of_le (a b : Nat) (hb : b ≤ a) (ha : a < U32) : subWrap a b = a - b := by
  simp only [subWrap, U32] at *
  omega

/-- Unfolding lemma: the bytes a drain call copies. -/
lemma fillBuffer_totalWritten (s : StreamState) (size : Nat) :
    (fillBuffer s size).totalWritten =
      (drainLoop (getBytesPerFrame s) size s.buffers s.currentBufferOffset).totalWritten := rfl

/-- Unfolding lemma: the destination of a drain call is the copied bytes
followed by the zero fill. -/
lemma fillBuffer_dest (s : StreamState) (size : Nat) :
    (fillBuffer s size).dest =
      (drainLoop (getBytesPerFrame s) size s.buffers s.currentBufferOffset).copied ++
        List.replicate
          (size -
            (drainLoop (getBytesPerFrame s) size s.buffers s.currentBufferOffset).totalWritten)
          0 := rfl

/-- Unfolding lemma: the post-drain frame counter. -/
lemma fillBuffer_queued (s : StreamState) (size : Nat) :
    (fillBuffer s size).state.queuedFrameCount =
      subWrap s.queuedFrameCount
        (drainLoop (getBytesPerFrame s) size s.buffers s.currentBufferOffset).decrement := rfl

/-- Unfolding lemma: the space-available signal fires when the post-drain
counter is strictly below the capacity and a waiter is pending. -/
lemma fillBuffer_firedReady (s : StreamState) (size : Nat) :
    (fillBuffer s size).firedReady =
      (decide ((fillBuffer s size).state.queuedFrameCount < s.frameBufferSize) &&
        s.readyDeferral) := rfl

/-- Unfolding lemma: the ready callback resolves only when it additionally
observes a positive available byte count. -/
lemma fillBuffer_resolvedReady (s : StreamState) (size : Nat) :
    (fillBuffer s size).resolvedReady =
      ((fillBuffer s size).firedReady &&
        decide (0 <
          ((s.frameBufferSize : Int) - ((fillBuffer s size).state.queuedFrameCount : Int)) *
            (getBytesPerFrame s : Int))) := rfl

/-- Unfolding lemma: the drained signal fires when the drain call copied
nothing and a waiter is pending. -/
lemma fillBuffer_firedFinished (s : StreamState) (size : Nat) :
    (fillBuffer s size).firedFinished =
      (decide ((fillBuffer s size).totalWritten = 0) && s.finishedDeferral) := rfl

/-! ## Claim theorems -/

/-- C1 (counterexample): at a reachable state whose queued chunks are not
aligned to the frame size in effect at drain time (two 12-byte chunks under
8-byte frames), `drain(dest, 24)` writes 24 bytes and copies 24 bytes, but the
frame counter drops by `12/8 + 12/8 = 2` rather than by `24/8 = 3`, so the
decrement is not `(bytes copied) / bytesPerFrame`. -/
theorem spec_C1_counterexample :
    (fillBuffer (run C1ops) 24).dest.length = 24 ∧
    (fillBuffer (run C1ops) 24).totalWritten = 24 ∧
    (fillBuffer (run C1ops) 24).state.queuedFrameCount = 4 ∧
    (fillBuffer (run C1ops) 24).state.queuedFrameCount ≠
      (run C1ops).queuedFrameCount -
        (fillBuffer (run C1ops) 24).totalWritten / getBytesPerFrame (run C1ops) := by
  decide

/-- C1 (amended): for every queue state, a single `drain(dest, N)` call
always writes exactly `N` bytes into `dest`, namely the copied bytes followed
by zero fill; and — provided the frame size is positive, the read offset and
every queued chunk length are multiples of the frame size current during the
drain (as holds whenever the geometry has not changed since the chunks were
written), the counter is a valid `uint` value, and the decrement does not
exceed the counter — it decreases `queuedFrames` by exactly
`(bytes copied) / bytesPerFrame`. -/
theorem spec_C1_amended (s : StreamState) (size : Nat) :
    (fillBuffer s size).dest.length = size ∧
    (fillBuffer s size).dest =
      (drainLoop (getBytesPerFrame s) size s.buffers s.currentBufferOffset).copied ++
        List.replicate (size - (fillBuffer s size).totalWritten) 0 ∧
    (0 < getBytesPerFrame s →
      s.queuedFrameCount < U32 →
      s.currentBufferOffset % getBytesPerFrame s = 0 →
      (∀ c ∈ s.buffers, c.length % getBytesPerFrame s = 0) →
      (drainLoop (getBytesPerFrame s) size s.buffers s.currentBufferOffset).totalWritten /
          getBytesPerFrame s ≤ s.queuedFrameCount →
      (fillBuffer s size).state.queuedFrameCount =
        s.queuedFrameCount - (fillBuffer s size).totalWritten / getBytesPerFrame s) := by
  refine ⟨?_, ?_, ?_⟩
  · have hlen := drainLoop_copied_length (getBytesPerFrame s) s.buffers size s.currentBufferOffset
    have htw := drainLoop_totalWritten_le (getBytesPerFrame s) s.buffers size s.currentBufferOffset
    rw [fillBuffer_dest]
    simp only [List.length_append, List.length_replicate, hlen]
    omega
  · rw [fillBuffer_dest, fillBuffer_totalWritten]
  · intro hstride hq hoff hbufs hle
    have hdec := drainLoop_decrement_aligned (getBytesPerFrame s) hstride s.buffers size
      s.currentBufferOffset hoff hbufs
    rw [fillBuffer_queued, fillBuffer_totalWritten, hdec]
    exact subWrap_of_le _ _ (hdec ▸ hle) hq

/-- C1 (witness): the amended claim evaluated at a concrete aligned state —
a 32-byte chunk (2 frames of 16 bytes) and a 48-byte drain request write 48
bytes and leave the counter at `2 - 32/16 = 0`. -/
theorem spec_C1_amended_witness :
    (fillBuffer c1WitnessState 48).dest.length = 48 ∧
    (fillBuffer c1WitnessState 48).state.queuedFrameCount =
      c1WitnessState.queuedFrameCount -
        (fillBuffer c1WitnessState 48).totalWritten / getBytesPerFrame c1WitnessState := by
  have h := spec_C1_amended c1WitnessState 48
  exact ⟨h.1, h.2.2 (by decide) (by decide) (by decide) (by decide) (by decide)⟩

/-- C2 (code bug): after writing 16 bytes as 2 frames of 8 bytes and then
confirming a 4-byte-frame geometry, draining those 16 bytes subtracts 4 frames
from the `uint` counter holding 2; the counter underflows to `2^32 - 2`
(mathematically `-2`) instead of staying non-negative, and `availableBytes`
is consequently clamped to 0 for good. -/
theorem spec_C2_underflow :
    (run C2ops).queuedFrameCount = 4294967294 ∧ getBufferSize (run C2ops) = 0 := by
  decide

/-- C3: a `write` whose buffer length is not a multiple of the current frame
size throws the misaligned-length `TypeError` synchronously and leaves the
queue state unchanged: no chunk is appended and `queuedFrames` keeps its prior
value. -/
theorem spec_C3 :
    ∀ (s : StreamState) (chunk : List Nat),
      chunk.length % getBytesPerFrame s ≠ 0 →
      (write s chunk).threw = true ∧ (write s chunk).state = s := by
  intro s chunk h
  unfold write
  rw [if_pos h]
  exact ⟨rfl, rfl⟩

/-- C3 (witness): a 7-byte write at the default 16-byte frames is misaligned,
throws, and changes nothing. -/
theorem spec_C3_witness :
    (List.replicate 7 1).length % getBytesPerFrame initialState ≠ 0 ∧
    (write initialState (List.replicate 7 1)).threw = true ∧
    (write initialState (List.replicate 7 1)).state = initialState :=
  ⟨by decide, spec_C3 initialState (List.replicate 7 1) (by decide)⟩

/-- C4 (counterexample): a state with a pending space waiter and 2050 frames
queued at 2-byte frames (above the 2048-frame capacity) whose next drain of 4
bytes lands the counter exactly on the capacity: `queuedFrames` is at (hence
at-or-below) `capacityFrames` after the drain, yet the waiter is neither
signalled nor resolved, because the code requires strictly-below. -/
theorem spec_C4_counterexample :
    c4CexState.readyDeferral = true ∧
    (fillBuffer c4CexState 4).state.queuedFrameCount = c4CexState.frameBufferSize ∧
    (fillBuffer c4CexState 4).firedReady = false ∧
    (fillBuffer c4CexState 4).resolvedReady = false := by
  decide

/-- C4 (amended): with a positive frame size, a pending space waiter is
resolved by exactly those drain calls after which `queuedFrames` is strictly
below `capacityFrames`, and never by a drain call that leaves it at or above
`capacityFrames`. -/
theorem spec_C4_amended (s : StreamState) (size : Nat) (h : 0 < getBytesPerFrame s) :
    (fillBuffer s size).resolvedReady = true ↔
      ((fillBuffer s size).state.queuedFrameCount < s.frameBufferSize ∧
        s.readyDeferral = true) := by
  rw [fillBuffer_resolvedReady, fillBuffer_firedReady]
  simp only [Bool.and_eq_true, decide_eq_true_eq]
  constructor
  · rintro ⟨⟨h1, h2⟩, _⟩
    exact ⟨h1, h2⟩
  · rintro ⟨h1, h2⟩
    refine ⟨⟨h1, h2⟩, ?_⟩
    have hsub : (0 : Int) <
        (s.frameBufferSize : Int) - ((fillBuffer s size).state.queuedFrameCount : Int) := by
      omega
    exact mul_pos hsub (by exact_mod_cast h)

/-- C4 (witness): the amended claim at a concrete input — draining one 32-byte
chunk from 2049 queued frames lands at 2047, strictly below capacity, and the
pending waiter resolves. -/
theorem spec_C4_amended_witness :
    (fillBuffer c4WitnessState 32).resolvedReady = true := by
  have h := spec_C4_amended c4WitnessState 32 (by decide)
  exact h.mpr ⟨by decide, rfl⟩

/-- C5: a drain call that ends with `queuedFrames` exactly equal to
`capacityFrames` fires no space-available notification; and in Scenario A
(8-byte frames, 4-frame capacity, pending waiter) `write(64 bytes)` queues 8
frames, then `drain(dest, 32)` copies 32 bytes with no zero fill, leaves
`queuedFrames` at 4, and triggers no space notification. -/
theorem spec_C5 :
    (∀ (s : StreamState) (size : Nat),
      (fillBuffer s size).state.queuedFrameCount = s.frameBufferSize →
      (fillBuffer s size).firedReady = false ∧ (fillBuffer s size).resolvedReady = false) ∧
    ((write scenarioA (List.replicate 64 3)).threw = false ∧
     (write scenarioA (List.replicate 64 3)).state.queuedFrameCount = 8 ∧
     (fillBuffer (write scenarioA (List.replicate 64 3)).state 32).totalWritten = 32 ∧
     (fillBuffer (write scenarioA (List.replicate 64 3)).state 32).dest = List.replicate 32 3 ∧
     (fillBuffer (write scenarioA (List.replicate 64 3)).state 32).state.queuedFrameCount = 4 ∧
     (fillBuffer (write scenarioA (List.replicate 64 3)).state 32).firedReady = false ∧
     (fillBuffer (write scenarioA (List.replicate 64 3)).state 32).resolvedReady = false) := by
  constructor
  · intro s size h
    have hd : decide ((fillBuffer s size).state.queuedFrameCount < s.frameBufferSize) = false := by
      rw [h]
      simp
    constructor
    · rw [fillBuffer_firedReady, hd, Bool.false_and]
    · rw [fillBuffer_resolvedReady, fillBuffer_firedReady, hd, Bool.false_and, Bool.false_and]
  · decide

/-- C5 (witness): the general at-capacity part evaluated at a concrete state —
a zero-byte drain of a stream holding exactly its 2-frame capacity fires
nothing. -/
theorem spec_C5_witness :
    (fillBuffer c5WitnessState 0).firedReady = false ∧
    (fillBuffer c5WitnessState 0).resolvedReady = false :=
  spec_C5.1 c5WitnessState 0 (by decide)

/-- C6: `waitForDrained` resolves immediately if and only if `queuedFrames`
is zero at the time of the call; otherwise the pending drained waiter is
resolved by exactly those drain calls that copy zero bytes from the queue. -/
theorem spec_C6 :
    (∀ s : StreamState, (isFinished s).2 = true ↔ s.queuedFrameCount = 0) ∧
    (∀ (s : StreamState) (size : Nat),
      (fillBuffer s size).firedFinished = true ↔
        ((fillBuffer s size).totalWritten = 0 ∧ s.finishedDeferral = true)) := by
  constructor
  · intro s
    by_cases h : s.queuedFrameCount = 0 <;> simp [isFinished, h]
  · intro s size
    rw [fillBuffer_firedFinished]
    simp [Bool.and_eq_true, decide_eq_true_eq]

/-- C7: bytes-per-sample is derived from the chosen encoding by the fixed
table — 64-bit float maps to 8 bytes, 32-bit float and the 32-bit integer
variants (signed, unsigned, 24-in-32) map to 4 bytes, the 16-bit variants map
to 2 bytes, and every other encoding maps to the default of 4 bytes. -/
theorem spec_C7 :
    bytesForFormat .F64 = 8 ∧ bytesForFormat .F32 = 4 ∧ bytesForFormat .S32 = 4 ∧
    bytesForFormat .U32fmt = 4 ∧ bytesForFormat .S24_32 = 4 ∧
    bytesForFormat .S16 = 2 ∧ bytesForFormat .U16 = 2 ∧
    (∀ code : Nat, bytesForFormat (.other code) = 4) :=
  ⟨rfl, rfl, rfl, rfl, rfl, rfl, rfl, fun _ => rfl⟩

/-- C8: a confirmed-geometry event fires the format-change notification if and
only if the newly applied geometry (rate, channel count, encoding, or derived
bytes-per-sample) differs from the prior stored geometry; when it fires, the
stored geometry has been updated to the new values; and at the initial state
the first confirmation fires exactly when it differs from the constructor
defaults (48000 Hz, 2 channels, F64, 8 bytes per sample). -/
theorem spec_C8 :
    ∀ (s : StreamState) (info : AudioInfoRaw),
      ((onFormatChange s info).2 = true ↔
        (info.rate ≠ s.rate ∨ info.channels ≠ s.channels ∨ info.format ≠ s.format ∨
          bytesForFormat info.format ≠ s.bytesPerSample)) ∧
      ((onFormatChange s info).2 = true →
        ((onFormatChange s info).1.rate = info.rate ∧
         (onFormatChange s info).1.channels = info.channels ∧
         (onFormatChange s info).1.format = info.format ∧
         (onFormatChange s info).1.bytesPerSample = bytesForFormat info.format)) ∧
      ((onFormatChange initialState info).2 = true ↔
        (info.rate ≠ 48000 ∨ info.channels ≠ 2 ∨ info.format ≠ .F64 ∨
          bytesForFormat info.format ≠ 8)) := by
  intro s info
  have hiff : ∀ t : StreamState, ((onFormatChange t info).2 = true ↔
      (info.rate ≠ t.rate ∨ info.channels ≠ t.channels ∨ info.format ≠ t.format ∨
        bytesForFormat info.format ≠ t.bytesPerSample)) := by
    intro t
    by_cases h : (info.rate ≠ t.rate ∨ info.channels ≠ t.channels ∨ info.format ≠ t.format ∨
        bytesForFormat info.format ≠ t.bytesPerSample)
    · simp [onFormatChange, h]
    · simp [onFormatChange, h]
  refine ⟨hiff s, ?_, ?_⟩
  · intro hfired
    by_cases h : (info.rate ≠ s.rate ∨ info.channels ≠ s.channels ∨ info.format ≠ s.format ∨
        bytesForFormat info.format ≠ s.bytesPerSample)
    · unfold onFormatChange
      rw [if_pos h]
      exact ⟨rfl, rfl, rfl, rfl⟩
    · exact absurd ((hiff s).mp hfired) h
  · simpa [initialState] using hiff initialState

/-- C8 (witness): confirming F32 at 44100 Hz stereo against the constructor
defaults fires and stores the applied geometry. -/
theorem spec_C8_witness :
    (onFormatChange initialState ⟨.F32, 44100, 2⟩).1.rate = 44100 ∧
    (onFormatChange initialState ⟨.F32, 44100, 2⟩).1.bytesPerSample = 4 :=
  have h := (spec_C8 initialState ⟨.F32, 44100, 2⟩).2.1 (by decide)
  ⟨h.1, h.2.2.2⟩

/-- C9 (code bug): on a freshly created stream, the first `destroy()` runs
cleanly (no failing unref, first release of the notification channels, the
`pw_stream` released once); the second `destroy()` rejects no waiter and skips
`pw_stream_destroy`, but its unconditional completion block releases the five
already-released notification `ThreadSafeFunction`s a second time and calls
`props.Unref()` at reference count 0, which fails and throws under the
C++-exceptions build — so the second call is not the no-op the claim and spec
require. -/
theorem spec_C9_doubleDestroy :
    (destroyStream c9State).threwOnUnref = false ∧
    (destroyStream c9State).releasedCallbacksAgain = false ∧
    (destroyStream c9State).releasedStream = true ∧
    (destroyStream (destroyStream c9State).state).rejectedReady = false ∧
    (destroyStream (destroyStream c9State).state).rejectedFinished = false ∧
    (destroyStream (destroyStream c9State).state).releasedStream = false ∧
    (destroyStream (destroyStream c9State).state).releasedCallbacksAgain = true ∧
    (destroyStream (destroyStream c9State).state).threwOnUnref = true := by
  decide

/-- No single operation changes the frame-buffer capacity. -/
lemma step_frameBufferSize (s : StreamState) (op : Op) :
    (step s op).frameBufferSize = s.frameBufferSize := by
  cases op with
  | create o => rfl
  | connect => rfl
  | write chunk =>
    show (write s chunk).state.frameBufferSize = s.frameBufferSize
    unfold write
    dsimp only
    split <;> rfl
  | drain size => rfl
  | formatChange info =>
    show (onFormatChange s info).1.frameBufferSize = s.frameBufferSize
    unfold onFormatChange
    dsimp only
    split <;> rfl
  | waitForSpace =>
    show (isReady s).1.frameBufferSize = s.frameBufferSize
    unfold isReady
    split <;> rfl
  | waitForDrained =>
    show (isFinished s).1.frameBufferSize = s.frameBufferSize
    unfold isFinished
    split <;> rfl
  | destroy => rfl

/-- The frame-buffer capacity survives any operation sequence. -/
lemma foldl_frameBufferSize :
    ∀ (ops : List Op) (s : StreamState),
      (ops.foldl step s).frameBufferSize = s.frameBufferSize := by
  intro ops
  induction ops with
  | nil => intro s; rfl
  | cons op rest ih =>
    intro s
    rw [List.foldl_cons, ih, step_frameBufferSize]

/-- C10: `capacityFrames` is the constant 2048 for every stream instance — no
operation sequence (construction with options, connect, write, drain,
waiters, confirmed format changes, destroy) ever modifies the frame-buffer
capacity, so `availableBytes()` always equals
`max(0, (2048 - queuedFrames) * bytesPerFrame)`. -/
theorem spec_C10 :
    ∀ ops : List Op,
      (run ops).frameBufferSize = 2048 ∧
      getBufferSize (run ops) =
        max 0 ((2048 - ((run ops).queuedFrameCount : Int)) *
          (getBytesPerFrame (run ops) : Int)) := by
  intro ops
  have h : (run ops).frameBufferSize = 2048 := foldl_frameBufferSize ops initialState
  refine ⟨h, ?_⟩
  unfold getBufferSize
  rw [h]
  norm_num
